import Mathlib

/-!
Verification of `generate_report.py`, a converter for Chinese ride-hailing
PDF trip receipts.  The pipeline is: extract the PDF's text (pdfminer,
external), detect the issuing platform and trip-row count from textual
markers (`_read_meta`), compute a platform-specific cropping region and run
the external table-extraction engine (tabula), post-process the extracted
table (`_parse_didi` / `_parse_gaode` / `_parse_shouqi` / `_parse_meituan` /
`_parse_huaxiaozhu` / `_parse_unknown`), write the result as CSV or Excel
(`_output`), and optionally build a Word report table (`generate_report`).

The external libraries (pdfminer's `extract_text`, tabula's `read_pdf`,
pandas' serializers, python-docx) are modelled as inputs/outputs at the
call boundary; everything the script itself computes is embedded as
executable Lean definitions over `List Char` / `String` data.
-/

set_option maxRecDepth 4096

namespace GenerateReport

/-! ### Python string primitives

`_extract_text` uses `str.splitlines`, `str.strip` and `str.join`;
`_parse_shouqi` / `_parse_meituan` use `str.strip`.  We embed the Python
semantics of these operations on `List Char`.
-/

/-- The characters Python's `str.splitlines` treats as line boundaries:
`\n`, `\r`, `\v`, `\f`, the separators `\x1c`‥`\x1e`, `\x85`, ` `,
` `; the pair `\r\n` counts as a single boundary and is handled in
`pySplitlinesCore`. -/
def pyIsLineBreak (c : Char) : Bool :=
  c = '\n' || c = '\r' || c = '\x0b' || c = '\x0c' ||
  c = '\x1c' || c = '\x1d' || c = '\x1e' || c = '\x85' ||
  c = ' ' || c = ' '

/-- The characters Python's `str.strip` (with no argument) removes:
Unicode whitespace. -/
def pyIsSpace (c : Char) : Bool :=
  c = ' ' || c = '\t' || c = '\n' || c = '\r' || c = '\x0b' || c = '\x0c' ||
  c = '\x1c' || c = '\x1d' || c = '\x1e' || c = '\x1f' || c = '\x85' ||
  c = '\xa0' || c = ' ' ||
  (0x2000 ≤ c.toNat && c.toNat ≤ 0x200a) ||
  c = ' ' || c = ' ' || c = ' ' || c = ' ' || c = '　'

/-- `str.strip()`: drop Python whitespace from both ends. -/
def pyStrip (s : List Char) : List Char :=
  ((s.dropWhile pyIsSpace).reverse.dropWhile pyIsSpace).reverse

/-- `str.strip()` on a `String`. -/
def pyStripS (s : String) : String :=
  String.mk (pyStrip s.data)

/-- Core of `str.splitlines`: cut at every line boundary, `\r\n` counting
as one boundary.  The result always lists one (possibly empty) segment per
boundary-delimited stretch, including a final segment after the last
boundary; `pySplitlines` below removes that final segment when it is empty,
which gives exactly Python's semantics
(`"a\n".splitlines() == ["a"]`, `"".splitlines() == []`). -/
def pySplitlinesCore : List Char → List (List Char)
  | [] => [[]]
  | '\r' :: '\n' :: rest => [] :: pySplitlinesCore rest
  | c :: rest =>
    if pyIsLineBreak c then
      [] :: pySplitlinesCore rest
    else
      match pySplitlinesCore rest with
      | [] => [[c]]
      | l :: ls => (c :: l) :: ls

/-- Python `str.splitlines()`. -/
def pySplitlines (s : List Char) : List (List Char) :=
  if (pySplitlinesCore s).getLast? = some [] then (pySplitlinesCore s).dropLast
  else pySplitlinesCore s

-- Sanity checks of the Python semantics on concrete strings.
example : pySplitlines "ab".data = ["ab".data] := by decide
example : pySplitlines "a\nb".data = ["a".data, "b".data] := by decide
example : pySplitlines "a\r\nb\n".data = ["a".data, "b".data] := by decide
example : pySplitlines "a\n\nb".data = ["a".data, [], "b".data] := by decide
example : pySplitlines "".data = [] := by decide
example : pySplitlines "\n".data = [[]] := by decide
example : pyStrip "  a b\t".data = "a b".data := by decide

/-! ### Logging

The script writes messages through Python's `logging` module; we record
them as a list of entries. -/

inductive LogLevel
  | error
  | warning
deriving DecidableEq, Repr

structure LogEntry where
  level : LogLevel
  msg : String
deriving DecidableEq, Repr

/-! ### `_extract_text`

```python
def _extract_text(file_path):
    try:
        pdf_to_text = extract_text(file_path)
        return ''.join([x for x in filter(lambda x: x.strip() != '',
                                          "".join(pdf_to_text).splitlines())])
    except PDFSyntaxError as pse:
        logging.error('文件解析错误，不是一个正确的 PDF 文件')
        raise Exception('无法解析 PDF') from pse
```

`extract_text` is pdfminer's, external: its outcome (the extracted text, or
a `PDFSyntaxError`) is the model's input.  `"".join(pdf_to_text)` is the
identity on a string.
-/

/-- Outcome of pdfminer's `extract_text` on a given file (external). -/
inductive PdfExtractResult
  | ok (text : List Char)
  | syntaxError (msg : String)

/-- A raised Python exception; `cause` models the `raise ... from pse`
chaining (`__cause__`). -/
structure RaisedException where
  msg : String
  cause : Option String
deriving DecidableEq, Repr

/-- The success path of `_extract_text`: keep the lines of the extracted
text whose `strip()` is nonempty and join them with no separator. -/
def cleanText (s : List Char) : List Char :=
  ((pySplitlines s).filter (fun x => !(pyStrip x).isEmpty)).flatten

/-- `_extract_text`, as a function of the external extraction outcome:
returns the log entries written and either the cleaned text or the raised
exception. -/
def extract_text_model (r : PdfExtractResult) :
    List LogEntry × Except RaisedException (List Char) :=
  match r with
  | .ok t => ([], .ok (cleanText t))
  | .syntaxError m =>
    ([⟨.error, "文件解析错误，不是一个正确的 PDF 文件"⟩],
     .error ⟨"无法解析 PDF", some m⟩)

example : cleanText "a b\n  \nc\n".data = "a bc".data := by decide

/-! ### Platform detection: `platform_pattern` and `_read_meta`

```python
platform_pattern = {
    'didi':    {'title_like': '滴滴出行', 'line_count_like': r'共(\d+)笔行程', 'parser': _parse_didi},
    'gaode':   {'title_like': '高德地图', 'line_count_like': r'共计(\d+)单行程', 'parser': _parse_gaode},
    'shouqi':  {'title_like': '首汽约车电子行程单', 'line_count_like': r'共(\d+)个行程', 'parser': _parse_shouqi},
    'meituan': {'title_like': '美团打车', 'line_count_like': r'(\d+)笔行程', 'parser': _parse_meituan},
    'huaxiaozhu': {'title_like': '花小猪打车', 'line_count_like': r'(\d+)笔行程', 'parser': _parse_huaxiaozhu}
}

def _read_meta(file_path):
    file_content = _extract_text(file_path)
    line_count = 0
    for p, pattern in platform_pattern.items():
        if re.search(pattern['title_like'], file_content):
            match = re.search(pattern['line_count_like'], file_content)
            if match:
                line_count = int(match.group(1))
            return p, line_count, pattern['parser']
    return 'unknown', 0, _parse_unknown
```

Each `title_like` regex is metacharacter-free, so `re.search` on it is a
substring test.  Each `line_count_like` regex has the shape
`PRE(\d+)SUF`; since every `SUF` starts with a non-digit character, the
greedy `\d+` can only match a maximal digit run, so `re.search` finds the
leftmost position where `PRE`, then a nonempty maximal digit run, then
`SUF` occur consecutively, and captures that digit run.  `\d` is embedded
as the ASCII digits (the receipts are ASCII-numbered).  Python dicts
iterate in insertion order, so the `for` loop visits the five platforms in
the order written above.
-/

/-- `re.search(pat, text)` for a metacharacter-free pattern: substring
test. -/
def containsSub (text pat : List Char) : Bool :=
  match text with
  | [] => pat.isEmpty
  | _ :: rest => pat.isPrefixOf text || containsSub rest pat

/-- `int(ds)` for a digit string. -/
def natOfDigits (ds : List Char) : ℕ :=
  ds.foldl (fun n c => 10 * n + (c.toNat - '0'.toNat)) 0

/-- Match `PRE(\d+)SUF` exactly at the start of `text`, returning the
captured number. -/
def matchCountAt (pre suf text : List Char) : Option ℕ :=
  if pre.isPrefixOf text then
    let rest := text.drop pre.length
    let ds := rest.takeWhile Char.isDigit
    if ds.isEmpty then none
    else if suf.isPrefixOf (rest.drop ds.length) then some (natOfDigits ds)
    else none
  else none

/-- `re.search` for `PRE(\d+)SUF`: try each start position left to
right. -/
def searchCount (pre suf : List Char) : List Char → Option ℕ
  | [] => matchCountAt pre suf []
  | c :: rest =>
    match matchCountAt pre suf (c :: rest) with
    | some n => some n
    | none => searchCount pre suf rest

/-- Identifies which `_parse_*` function `_read_meta` hands back. -/
inductive ParserTag
  | didi
  | gaode
  | shouqi
  | meituan
  | huaxiaozhu
  | unknown
deriving DecidableEq, Repr

/-- One entry of the `platform_pattern` dict; the `line_count_like` regex
`PRE(\d+)SUF` is stored as the pair `lcPre`/`lcSuf`. -/
structure PlatformPattern where
  tag : String
  title_like : List Char
  lcPre : List Char
  lcSuf : List Char
  parser : ParserTag
deriving DecidableEq, Repr

/-- The `platform_pattern` dict, in its (insertion-order) iteration
order. -/
def platform_pattern : List PlatformPattern :=
  [⟨"didi", "滴滴出行".data, "共".data, "笔行程".data, .didi⟩,
   ⟨"gaode", "高德地图".data, "共计".data, "单行程".data, .gaode⟩,
   ⟨"shouqi", "首汽约车电子行程单".data, "共".data, "个行程".data, .shouqi⟩,
   ⟨"meituan", "美团打车".data, [], "笔行程".data, .meituan⟩,
   ⟨"huaxiaozhu", "花小猪打车".data, [], "笔行程".data, .huaxiaozhu⟩]

/-- The line count `_read_meta` reports for platform `p`: the captured
number when `line_count_like` matches, otherwise the initial value 0. -/
def lineCountOf (p : PlatformPattern) (text : List Char) : ℕ :=
  (searchCount p.lcPre p.lcSuf text).getD 0

/-- The `for p, pattern in platform_pattern.items()` loop of
`_read_meta`. -/
def read_meta_loop (text : List Char) :
    List PlatformPattern → String × ℕ × ParserTag
  | [] => ("unknown", 0, .unknown)
  | p :: ps =>
    if containsSub text p.title_like then (p.tag, lineCountOf p text, p.parser)
    else read_meta_loop text ps

/-- `_read_meta`, as a function of the (already extracted and cleaned)
text content of the PDF. -/
def read_meta (text : List Char) : String × ℕ × ParserTag :=
  read_meta_loop text platform_pattern

example : read_meta "滴滴出行 共12笔行程".data = ("didi", 12, .didi) := by decide
example : read_meta "花小猪打车 共3笔行程".data = ("huaxiaozhu", 3, .huaxiaozhu) := by decide
example : read_meta "高德地图 共计7单行程".data = ("gaode", 7, .gaode) := by decide
example : read_meta "首汽约车电子行程单共2个行程".data = ("shouqi", 2, .shouqi) := by decide
example : read_meta "美团打车 5笔行程".data = ("meituan", 5, .meituan) := by decide
example : read_meta "无关文本".data = ("unknown", 0, .unknown) := by decide
example : read_meta "滴滴出行 行程".data = ("didi", 0, .didi) := by decide

/-! ### Cropping regions

Each `_parse_*` function builds the `area` list `[top, left, bottom,
right]` passed to `tabula.read_pdf`, overwriting index 2 (the bottom
coordinate) with a linear function of `line_count` when `line_count` is
nonzero, e.g.

```python
didi_area = [266, 42.765625, 785.028125, 564.134375]
if line_count != 0:
    didi_area[2] = 3120.003125 + 31.2375 * line_count
```

(`_parse_meituan` writes `if line_count:`, which for an `int` is the same
test.)  The decimal literals are embedded as rationals.
-/

/-- A tabula `area` list `[top, left, bottom, right]`. -/
structure TabulaArea where
  top : ℚ
  left : ℚ
  bottom : ℚ
  right : ℚ
deriving DecidableEq, Repr

/-- `didi_area` before the `line_count` adjustment. -/
def didi_area : TabulaArea := ⟨266, 42.765625, 785.028125, 564.134375⟩

/-- `huaxiaozhu_area` before the `line_count` adjustment. -/
def huaxiaozhu_area : TabulaArea := ⟨222, 42, 780, 564⟩

/-- `gaode_area` before the `line_count` adjustment. -/
def gaode_area : TabulaArea := ⟨173, 37.5767, 791.3437, 559.1864⟩

/-- `shouqi_area` before the `line_count` adjustment. -/
def shouqi_area : TabulaArea := ⟨153.584375, 29.378125, 817.753125, 566.365625⟩

/-- `meituan_area` before the `line_count` adjustment. -/
def meituan_area : TabulaArea := ⟨285.7275, 41.6925, 314.7975, 571.0725⟩

/-- The `area` `_parse_didi` passes to tabula. -/
def didiArea (line_count : ℕ) : TabulaArea :=
  if line_count ≠ 0 then
    { didi_area with bottom := 3120.003125 + 31.2375 * line_count }
  else didi_area

/-- The `area` `_parse_huaxiaozhu` passes to tabula. -/
def huaxiaozhuArea (line_count : ℕ) : TabulaArea :=
  if line_count ≠ 0 then
    { huaxiaozhu_area with bottom := 262 + 31 * line_count }
  else huaxiaozhu_area

/-- The `area` `_parse_gaode` passes to tabula. -/
def gaodeArea (line_count : ℕ) : TabulaArea :=
  if line_count ≠ 0 then
    { gaode_area with bottom := 216.9033 + line_count * 30 }
  else gaode_area

/-- The `area` `_parse_shouqi` passes to tabula. -/
def shouqiArea (line_count : ℕ) : TabulaArea :=
  if line_count ≠ 0 then
    { shouqi_area with bottom := 176.64062 + 15.95379 * line_count }
  else shouqi_area

/-- The `area` `_parse_meituan` passes to tabula (`if line_count:`). -/
def meituanArea (line_count : ℕ) : TabulaArea :=
  if line_count ≠ 0 then
    { meituan_area with bottom := 314.7975 + 28.305 * line_count }
  else meituan_area

/-! ### Tables and the `_parse_*` post-processing

`tabula.read_pdf` (external) returns a list of pandas DataFrames; each
parser logs when that list is empty (`logging.error("no table found")`) or
has more than one element (`logging.warning("more than 1 table
recognized")`), then takes `dfs[0]` — which raises `IndexError` when the
list is empty — and post-processes it.  A DataFrame is embedded as its
column names plus its rows of cells; a cell stands for the `str()` image
of the pandas value (pandas renders missing cells as `'nan'`, which the
shouqi/meituan code tests for). -/

structure DataFrame where
  columns : List String
  data : List (List String)
deriving DecidableEq, Repr

/-- The log entries the `len(dfs)` checks shared by every parser write. -/
def checkTables (dfs : List DataFrame) : List LogEntry :=
  if dfs.length = 0 then [⟨.error, "no table found"⟩]
  else if 1 < dfs.length then [⟨.warning, "more than 1 table recognized"⟩]
  else []

/-- `name.replace('\r', ' ')` (single-character replace). -/
def replaceCR (s : String) : String :=
  String.mk (s.data.map (fun c => if c = '\r' then ' ' else c))

/-- `_parse_didi` / `_parse_huaxiaozhu` header repair:
`df.columns = [name.replace('\r', ' ') for name in df.columns]`. -/
def fixColumns (df : DataFrame) : DataFrame :=
  { df with columns := df.columns.map replaceCR }

/-- The cell merge of `_parse_shouqi` (used for both the header and the
data rows): `str(x).strip() + ('' if str(y).strip() == 'nan' else
str(y).strip())`. -/
def shouqiMerge (x y : String) : String :=
  pyStripS x ++ (if pyStripS y = "nan" then "" else pyStripS y)

/-- The cell merge of `_parse_meituan`: `('' if str(x).strip() == 'nan'
else (str(x).strip() + ' ')) + str(y).strip()`. -/
def meituanMerge (x y : String) : String :=
  (if pyStripS x = "nan" then "" else pyStripS x ++ " ") ++ pyStripS y

/-- `zip(idx[offset::2], idx[offset+1::2])` over a list that starts at
`offset`: consecutive disjoint pairs. -/
def pairUp {α : Type _} : List α → List (α × α)
  | [] => []
  | [_] => []
  | a :: b :: rest => (a, b) :: pairUp rest

/-- Post-processing of `_parse_shouqi` on `dfs[0]`: merge row 0 into the
header (`zip(df.columns, df.iloc[0].values)`), then merge data rows
`(1,2), (3,4), …` (`zip(row_index[1::2], row_index[2::2])`).
`df.iloc[0]` raises `IndexError` on a frame with no rows, modelled as
`none`. -/
def parse_shouqi_post (df : DataFrame) : Option DataFrame :=
  match df.data with
  | [] => none
  | row0 :: rest =>
    some ⟨List.zipWith shouqiMerge df.columns row0,
          (pairUp rest).map (fun q => List.zipWith shouqiMerge q.1 q.2)⟩

/-- Post-processing of `_parse_meituan` on `dfs[0]`: merge data rows
`(0,1), (2,3), …` (`zip(row_index[::2], row_index[1::2])`); the column
names are kept. -/
def parse_meituan_post (df : DataFrame) : DataFrame :=
  ⟨df.columns, (pairUp df.data).map (fun q => List.zipWith meituanMerge q.1 q.2)⟩

/-- The per-platform post-processing applied to `dfs[0]`.  `_parse_gaode`
and `_parse_unknown` return `dfs[0]` unchanged. -/
def parserPost : ParserTag → DataFrame → Option DataFrame
  | .didi => fun df => some (fixColumns df)
  | .huaxiaozhu => fun df => some (fixColumns df)
  | .gaode => fun df => some df
  | .shouqi => parse_shouqi_post
  | .meituan => fun df => some (parse_meituan_post df)
  | .unknown => fun df => some df

/-- The table-handling stage common to every `_parse_*` function, as a
function of the list of tables tabula returned: the log entries written,
and the parser's result (`none` models the `IndexError` `dfs[0]` raises on
an empty list, and the `IndexError` of `df.iloc[0]` inside
`_parse_shouqi`). -/
def runParser (tag : ParserTag) (dfs : List DataFrame) :
    List LogEntry × Option DataFrame :=
  (checkTables dfs, dfs.head? >>= parserPost tag)

/-! ### Output: `_output_csv`, `_output_excel`, `_output`

```python
def _output_csv(df, output_path):
    with open(output_path, mode='wb') as output:
        output.write(BOM_UTF8)
    with open(output_path, mode='a', newline='') as output:
        df.to_csv(output, index=False)

def _output_excel(df, output_path):
    df.to_excel(output_path, index=False, sheet_name='Sheet1')

def _output(df, file_type):
    extension = {'csv': 'csv', 'excel': 'xlsx'}
    if file_type in ['csv', 'excel']:
        exporter = getattr(sys.modules[__name__], '_output_' + file_type)
        exporter(df, 'output.' + extension[file_type])
    else:
        logging.error('不支持的导出文件类型，目前仅支持 CSV 和 Excel')
```

A written file is modelled by its name and content.  The CSV file's
content is the raw byte sequence: the UTF-8 byte-order mark written in
binary mode, then the UTF-8 encoding of pandas'
`to_csv(index=False)` serialization (embedded in `dfToCsv`: minimal
quoting, comma separator, newline row terminator, no index column).  The
XLSX file is an opaque workbook written by `to_excel`, recorded with the
table it contains, the `index=False` flag and the sheet name. -/

/-- `codecs.BOM_UTF8`. -/
def BOM_UTF8 : List UInt8 := [0xef, 0xbb, 0xbf]

/-- UTF-8 encoding of a string, as bytes. -/
def utf8Bytes (s : String) : List UInt8 :=
  s.toUTF8.toList

/-- One CSV field under pandas' default `QUOTE_MINIMAL`: quoted (with
inner quotes doubled) exactly when it contains a separator, quote or line
break. -/
def csvField (s : String) : String :=
  if s.data.any (fun c => c = ',' || c = '\"' || c = '\r' || c = '\n') then
    "\"" ++ String.mk (s.data.foldr
      (fun c acc => if c = '\"' then '\"' :: '\"' :: acc else c :: acc) [])
      ++ "\""
  else s

/-- One CSV record: comma-separated fields. -/
def csvRow (cells : List String) : String :=
  String.intercalate "," (cells.map csvField)

/-- `df.to_csv(index=False)`: the header record followed by one record
per row, each terminated by a newline; no index column. -/
def dfToCsv (df : DataFrame) : String :=
  String.intercalate "\n" (csvRow df.columns :: df.data.map csvRow) ++ "\n"

/-- Content of a file the script writes. -/
inductive OutputContent
  | bytes (bs : List UInt8)
  | excelWorkbook (table : DataFrame) (withIndex : Bool) (sheetName : String)
deriving DecidableEq

structure OutputFile where
  name : String
  content : OutputContent
deriving DecidableEq

/-- `_output_csv`: BOM then the CSV text, at `output_path`. -/
def output_csv (df : DataFrame) (output_path : String) : OutputFile :=
  ⟨output_path, .bytes (BOM_UTF8 ++ utf8Bytes (dfToCsv df))⟩

/-- `_output_excel`: the workbook written by
`df.to_excel(output_path, index=False, sheet_name='Sheet1')`. -/
def output_excel (df : DataFrame) (output_path : String) : OutputFile :=
  ⟨output_path, .excelWorkbook df false "Sheet1"⟩

/-- `_output`: dispatch on the format flag; the result is the log entries
written and the files written. -/
def output (df : DataFrame) (file_type : String) :
    List LogEntry × List OutputFile :=
  if file_type = "csv" then ([], [output_csv df "output.csv"])
  else if file_type = "excel" then ([], [output_excel df "output.xlsx"])
  else ([⟨.error, "不支持的导出文件类型，目前仅支持 CSV 和 Excel"⟩], [])

example : dfToCsv ⟨["a", "b,c"], [["1", "x\"y"]]⟩
    = "a,\"b,c\"\n1,\"x\"\"y\"\n" := by decide

/-! ### The Word report: `generate_report`

Only the table of the generated document carries specified structure; the
title, the 填表人 paragraph and the trailing remark are fixed templated
text.  The table is embedded as its rows, a row being a list of cells,
each cell carrying its text and the number of grid columns it spans after
merging.  `doc.add_table(rows=1, cols=7)` makes a 7-column grid; each
`table.add_row()` starts as 7 empty single-span cells; writing
`row_data[i]` into cell `i` raises `IndexError` when `len(row_data) > 7`
(modelled as `none`); `cells[0].merge(cells[3])` and
`cells[4].merge(cells[6])` turn the total row into a 4-span cell holding
`"金额合计："` and a 3-span cell holding `str(total_amount)`. -/

structure DocCell where
  text : String
  span : ℕ
deriving DecidableEq, Repr

/-- The fixed header texts of the report table. -/
def reportHeaders : List String :=
  ["序号", "乘车日期", "乘车人", "出发地", "目的地", "外出事由", "金额"]

/-- The header row written into `table.rows[0]`. -/
def headerRow : List DocCell :=
  reportHeaders.map (fun h => ⟨h, 1⟩)

/-- One data row: a fresh 7-cell row whose first `len(row_data)` cells are
filled with `str(item)`; `none` models the `IndexError` on a longer
row. -/
def mkDataRow (row_data : List String) : Option (List DocCell) :=
  if row_data.length ≤ 7 then
    some ((row_data ++ List.replicate (7 - row_data.length) "").map
      (fun s => ⟨s, 1⟩))
  else none

/-- The merged total row. -/
def totalRow (total_amount : String) : List DocCell :=
  [⟨"金额合计：", 4⟩, ⟨total_amount, 3⟩]

/-- The `for row_data in data:` loop: build one table row per input row,
stopping with `IndexError` (`none`) at the first over-long row. -/
def buildDataRows : List (List String) → Option (List (List DocCell))
  | [] => some []
  | r :: rs => (mkDataRow r).bind (fun row => (buildDataRows rs).map (row :: ·))

/-- The table of the document `generate_report` builds: header row, one
row per element of `data` in order, then the total row.  `total_amount`
stands for `str(total_amount)`. -/
def generate_report (data : List (List String)) (total_amount : String) :
    Option (List (List DocCell)) :=
  (buildDataRows data).map
    (fun rows => headerRow :: rows ++ [totalRow total_amount])

/-! ## Theorems -/

/-- If no pattern in `ps` has its title in `text`, the `_read_meta` loop
falls through to the `unknown` default. -/
lemma read_meta_loop_of_filter_nil (text : List Char)
    (ps : List PlatformPattern)
    (h : ps.filter (fun q => containsSub text q.title_like) = []) :
    read_meta_loop text ps = ("unknown", 0, .unknown) := by
  induction ps with
  | nil => rfl
  | cons p ps ih =>
    rw [List.filter_cons] at h
    cases hp : containsSub text p.title_like with
    | true => rw [hp] at h; simp at h
    | false =>
      rw [hp] at h
      simp only [Bool.false_eq_true, if_false] at h
      simpa [read_meta_loop, hp] using ih h

/-- The `_read_meta` loop returns the entry of the first pattern in `ps`
whose title occurs in `text`. -/
lemma read_meta_loop_of_filter_head (text : List Char)
    (ps : List PlatformPattern) (p : PlatformPattern)
    (h : (ps.filter (fun q => containsSub text q.title_like)).head? = some p) :
    read_meta_loop text ps = (p.tag, lineCountOf p text, p.parser) := by
  induction ps with
  | nil => simp at h
  | cons q ps ih =>
    rw [List.filter_cons] at h
    cases hq : containsSub text q.title_like with
    | true =>
      rw [hq] at h
      simp only [if_true, List.head?_cons, Option.some.injEq] at h
      subst h
      simp [read_meta_loop, hq]
    | false =>
      rw [hq] at h
      simp only [Bool.false_eq_true, if_false] at h
      simpa [read_meta_loop, hq] using ih h

/-- C1: when the extracted text contains exactly one platform's title
marker, `_read_meta` returns that platform's tag and parser, with the line
count captured by that platform's `line_count_like` pattern when it
matches; when no title marker occurs, it returns
`('unknown', 0, _parse_unknown)`. -/
theorem read_meta_single_platform (text : List Char) :
    (∀ p : PlatformPattern,
       platform_pattern.filter (fun q => containsSub text q.title_like) = [p] →
       read_meta text = (p.tag, lineCountOf p text, p.parser) ∧
       ∀ n : ℕ, searchCount p.lcPre p.lcSuf text = some n →
         (read_meta text).2.1 = n) ∧
    (platform_pattern.filter (fun q => containsSub text q.title_like) = [] →
       read_meta text = ("unknown", 0, ParserTag.unknown)) := by
  constructor
  · intro p hp
    have h1 : read_meta text = (p.tag, lineCountOf p text, p.parser) :=
      read_meta_loop_of_filter_head text platform_pattern p (by rw [hp]; rfl)
    refine ⟨h1, fun n hn => ?_⟩
    rw [h1]
    simp [lineCountOf, hn]
  · intro h
    exact read_meta_loop_of_filter_nil text platform_pattern h

/-- Witness for C1 on the didi sample text `"滴滴出行 共12笔行程"`. -/
theorem read_meta_single_platform_witness :
    platform_pattern.filter
        (fun q => containsSub "滴滴出行 共12笔行程".data q.title_like)
      = [⟨"didi", "滴滴出行".data, "共".data, "笔行程".data, ParserTag.didi⟩] ∧
    read_meta "滴滴出行 共12笔行程".data = ("didi", 12, ParserTag.didi) := by
  refine ⟨by decide, ?_⟩
  have h := ((read_meta_single_platform "滴滴出行 共12笔行程".data).1
    ⟨"didi", "滴滴出行".data, "共".data, "笔行程".data, ParserTag.didi⟩
    (by decide)).1
  rw [h]
  decide

/-- C9: platform detection is priority-ordered.  When the title markers of
two or more platforms occur in the text, `_read_meta` returns the first
matching entry of the iteration order didi, gaode, shouqi, meituan,
huaxiaozhu (the head of the filtered `platform_pattern` list), and the
line count is computed from that entry's `line_count_like` pattern
alone. -/
theorem read_meta_priority (text : List Char)
    (_h2 : 2 ≤ (platform_pattern.filter
      (fun q => containsSub text q.title_like)).length)
    (p : PlatformPattern)
    (hp : (platform_pattern.filter
      (fun q => containsSub text q.title_like)).head? = some p) :
    read_meta text = (p.tag, lineCountOf p text, p.parser) :=
  read_meta_loop_of_filter_head text platform_pattern p hp

/-- Witness for C9 on a text containing both the didi and huaxiaozhu
markers: didi wins, and the count comes from didi's pattern. -/
theorem read_meta_priority_witness :
    2 ≤ (platform_pattern.filter
      (fun q => containsSub "花小猪打车滴滴出行共5笔行程".data q.title_like)).length ∧
    read_meta "花小猪打车滴滴出行共5笔行程".data = ("didi", 5, ParserTag.didi) := by
  refine ⟨by decide, ?_⟩
  have h := read_meta_priority "花小猪打车滴滴出行共5笔行程".data (by decide)
    ⟨"didi", "滴滴出行".data, "共".data, "笔行程".data, ParserTag.didi⟩
    (by decide)
  rw [h]
  decide

/-- C2: for a positive line count, each parser overwrites only the bottom
coordinate of its cropping region, with the platform's linear function of
the line count (didi `3120.003125 + 31.2375·n`, gaode `216.9033 + 30·n`,
shouqi `176.64062 + 15.95379·n`, meituan `314.7975 + 28.305·n`,
huaxiaozhu `262 + 31·n`); for a zero line count the fixed default region
is used unchanged. -/
theorem crop_region_linear (lc : ℕ) (h : 0 < lc) :
    didiArea lc = { didi_area with bottom := 3120.003125 + 31.2375 * (lc : ℚ) } ∧
    gaodeArea lc = { gaode_area with bottom := 216.9033 + 30 * (lc : ℚ) } ∧
    shouqiArea lc = { shouqi_area with bottom := 176.64062 + 15.95379 * (lc : ℚ) } ∧
    meituanArea lc = { meituan_area with bottom := 314.7975 + 28.305 * (lc : ℚ) } ∧
    huaxiaozhuArea lc = { huaxiaozhu_area with bottom := 262 + 31 * (lc : ℚ) } ∧
    didiArea 0 = didi_area ∧ gaodeArea 0 = gaode_area ∧
    shouqiArea 0 = shouqi_area ∧ meituanArea 0 = meituan_area ∧
    huaxiaozhuArea 0 = huaxiaozhu_area := by
  have hne : lc ≠ 0 := Nat.pos_iff_ne_zero.mp h
  refine ⟨?_, ?_, ?_, ?_, ?_, ?_, ?_, ?_, ?_, ?_⟩ <;>
    simp [didiArea, gaodeArea, shouqiArea, meituanArea, huaxiaozhuArea,
      hne, mul_comm]

/-- Witness for C2 at line count 2. -/
theorem crop_region_linear_witness :
    (0 : ℕ) < 2 ∧
    didiArea 2 = { didi_area with
                   bottom := 3120.003125 + 31.2375 * ((2 : ℕ) : ℚ) } :=
  ⟨by norm_num, (crop_region_linear 2 (by norm_num)).1⟩

/-- C5: when pdfminer's extraction fails with a PDF syntax error,
`_extract_text` logs an error and raises `Exception('无法解析 PDF')`
chained from the parse error; when extraction succeeds it returns the
cleaned text without raising and without logging. -/
theorem extract_text_error_handling (r : PdfExtractResult) :
    (∀ m, r = .syntaxError m →
       (extract_text_model r).1
           = [⟨.error, "文件解析错误，不是一个正确的 PDF 文件"⟩] ∧
       (extract_text_model r).2 = .error ⟨"无法解析 PDF", some m⟩) ∧
    (∀ t, r = .ok t →
       (extract_text_model r).1 = [] ∧
       (extract_text_model r).2 = .ok (cleanText t)) := by
  constructor
  · rintro m rfl
    exact ⟨rfl, rfl⟩
  · rintro t rfl
    exact ⟨rfl, rfl⟩

/-- Witness for C5 on a broken and an intact extraction outcome. -/
theorem extract_text_error_handling_witness :
    (extract_text_model (.syntaxError "broken")).2
        = .error ⟨"无法解析 PDF", some "broken"⟩ ∧
    (extract_text_model (.ok "x".data)).2 = .ok (cleanText "x".data) :=
  ⟨((extract_text_error_handling (.syntaxError "broken")).1 "broken" rfl).2,
   ((extract_text_error_handling (.ok "x".data)).2 "x".data rfl).2⟩

/-- C6: `_output` on a format flag other than `'csv'`/`'excel'` logs an
error and writes no file; on `'csv'` or `'excel'` it writes exactly one
file. -/
theorem output_format_dispatch (df : DataFrame) (ft : String) :
    (ft ≠ "csv" → ft ≠ "excel" →
       (output df ft).1
           = [⟨.error, "不支持的导出文件类型，目前仅支持 CSV 和 Excel"⟩] ∧
       (output df ft).2 = []) ∧
    (ft = "csv" ∨ ft = "excel" → (output df ft).2.length = 1) := by
  constructor
  · intro h1 h2
    simp [output, h1, h2]
  · rintro (rfl | rfl) <;> simp [output]

/-- Witness for C6 on the unsupported flag `'json'` and on `'csv'`. -/
theorem output_format_dispatch_witness :
    (output ⟨[], []⟩ "json").2 = [] ∧
    (output ⟨[], []⟩ "csv").2.length = 1 :=
  ⟨((output_format_dispatch ⟨[], []⟩ "json").1 (by decide) (by decide)).2,
   (output_format_dispatch ⟨[], []⟩ "csv").2 (Or.inl rfl)⟩

/-- C7: the `'csv'` flag writes the single file `output.csv` whose bytes
are the UTF-8 byte-order mark followed by the UTF-8 encoding of the
table's index-free CSV serialization; the `'excel'` flag writes the single
file `output.xlsx` holding the table without the index column. -/
theorem output_file_contents (df : DataFrame) :
    (output df "csv").2
        = [⟨"output.csv", .bytes (BOM_UTF8 ++ utf8Bytes (dfToCsv df))⟩] ∧
    (output df "excel").2
        = [⟨"output.xlsx", .excelWorkbook df false "Sheet1"⟩] ∧
    (output df "csv").1 = [] ∧ (output df "excel").1 = [] := by
  refine ⟨?_, ?_, ?_, ?_⟩ <;> simp [output, output_csv, output_excel]

/-- C3 counterexample: with zero tables every parser logs the error but
then evaluates `dfs[0]`, which raises `IndexError` — no result derived
from a first table is returned (the claim says one still is). -/
theorem parser_zero_tables_cex :
    (runParser ParserTag.didi []).1 = [⟨LogLevel.error, "no table found"⟩] ∧
    (runParser ParserTag.didi []).2 = none :=
  ⟨rfl, rfl⟩

/-- C3 (amended): with zero tables an error is logged and the parser
raises `IndexError` instead of returning a result; with one or more
tables the first table is used (a warning being logged when there is more
than one, nothing when there is exactly one). -/
theorem parser_table_selection (tag : ParserTag) (dfs : List DataFrame) :
    (dfs = [] →
       (runParser tag dfs).1 = [⟨.error, "no table found"⟩] ∧
       (runParser tag dfs).2 = none) ∧
    (∀ d rest, dfs = d :: rest →
       (runParser tag dfs).2 = parserPost tag d ∧
       (1 < dfs.length →
         (runParser tag dfs).1 = [⟨.warning, "more than 1 table recognized"⟩]) ∧
       (dfs.length = 1 → (runParser tag dfs).1 = [])) := by
  constructor
  · rintro rfl
    exact ⟨rfl, rfl⟩
  · rintro d rest rfl
    refine ⟨rfl, fun hlen => ?_, fun hlen => ?_⟩
    · simp only [runParser, checkTables]
      rw [if_neg (by omega), if_pos hlen]
    · simp only [runParser, checkTables]
      rw [if_neg (by omega), if_neg (by omega)]

/-- Witness for C3 (amended) at an empty and a two-element table list. -/
theorem parser_table_selection_witness :
    (runParser ParserTag.gaode []).2 = none ∧
    (runParser ParserTag.gaode [⟨["a"], []⟩, ⟨["b"], []⟩]).1
        = [⟨LogLevel.warning, "more than 1 table recognized"⟩] :=
  ⟨((parser_table_selection ParserTag.gaode []).1 rfl).2,
   (((parser_table_selection ParserTag.gaode [⟨["a"], []⟩, ⟨["b"], []⟩]).2
      ⟨["a"], []⟩ [⟨["b"], []⟩] rfl).2).1 (by decide)⟩

/-- `pairUp` yields `⌊n/2⌋` pairs. -/
lemma pairUp_length {α : Type _} : (l : List α) →
    (pairUp l).length = l.length / 2
  | [] => by simp [pairUp]
  | [_] => by simp [pairUp]
  | _ :: _ :: rest => by
    have ih := pairUp_length rest
    simp only [pairUp, List.length_cons, ih]
    omega

/-- The `k`-th pair of `pairUp l` is `(l[2k], l[2k+1])`. -/
lemma pairUp_getElem? {α : Type _} : (l : List α) → (k : ℕ) →
    (pairUp l)[k]?
      = l[2 * k]?.bind (fun a => l[2 * k + 1]?.map (fun b => (a, b)))
  | [], k => by simp [pairUp]
  | [a], k => by
    cases k with
    | zero => simp [pairUp]
    | succ k =>
      rw [show 2 * (k + 1) = 2 * k + 1 + 1 from rfl]
      simp [pairUp, List.getElem?_cons_succ]
  | a :: b :: rest, k => by
    cases k with
    | zero => simp [pairUp]
    | succ k =>
      have ih := pairUp_getElem? rest k
      rw [show 2 * (k + 1) = 2 * k + 1 + 1 from rfl,
          show 2 * k + 1 + 1 + 1 = 2 * k + 1 + 1 + 1 from rfl]
      simp only [pairUp, List.getElem?_cons_succ, ih]

/-- C4: the platform post-processing.  `_parse_shouqi` replaces the header
by the element-wise merge of the original header with row 0 and turns an
`n`-row table into `⌊(n-1)/2⌋` rows, row `k` being the element-wise merge
of input rows `2k+1` and `2k+2`; `_parse_meituan` keeps the header and
produces `⌊n/2⌋` rows, row `k` merging input rows `2k` and `2k+1`;
`_parse_didi` / `_parse_huaxiaozhu` replace every `'\r'` in each column
name by a space and leave the rows alone. -/
theorem parser_row_repair (df : DataFrame) :
    (∀ row0 rest, df.data = row0 :: rest →
       (parse_shouqi_post df).map DataFrame.columns
           = some (List.zipWith shouqiMerge df.columns row0) ∧
       (parse_shouqi_post df).map (fun o => o.data.length)
           = some ((df.data.length - 1) / 2) ∧
       ∀ k : ℕ, (parse_shouqi_post df).bind (fun o => o.data[k]?)
           = df.data[2 * k + 1]?.bind
               (fun a => df.data[2 * k + 2]?.map
                 (fun b => List.zipWith shouqiMerge a b))) ∧
    ((parse_meituan_post df).columns = df.columns ∧
     (parse_meituan_post df).data.length = df.data.length / 2 ∧
     ∀ k : ℕ, (parse_meituan_post df).data[k]?
         = df.data[2 * k]?.bind
             (fun a => df.data[2 * k + 1]?.map
               (fun b => List.zipWith meituanMerge a b))) ∧
    ((fixColumns df).columns
         = df.columns.map (fun name =>
             String.mk (name.data.map (fun c => if c = '\r' then ' ' else c))) ∧
     (fixColumns df).data = df.data) := by
  refine ⟨?_, ⟨rfl, ?_, ?_⟩, rfl, rfl⟩
  · intro row0 rest h
    refine ⟨?_, ?_, ?_⟩
    · simp [parse_shouqi_post, h]
    · simp [parse_shouqi_post, h, pairUp_length]
    · intro k
      have e1 : df.data[2 * k + 1]? = rest[2 * k]? := by
        rw [h, List.getElem?_cons_succ]
      have e2 : df.data[2 * k + 2]? = rest[2 * k + 1]? := by
        rw [h, show 2 * k + 2 = 2 * k + 1 + 1 from rfl, List.getElem?_cons_succ]
      rw [e1, e2]
      simp only [parse_shouqi_post, h, Option.bind_some, List.getElem?_map,
        pairUp_getElem?]
      cases h1 : rest[2 * k]? <;> cases h2 : rest[2 * k + 1]? <;>
        simp [h1, h2, pairUp_getElem?]
  · simp [parse_meituan_post, pairUp_length]
  · intro k
    simp only [parse_meituan_post, List.getElem?_map, pairUp_getElem?]
    cases h1 : df.data[2 * k]? <;> cases h2 : df.data[2 * k + 1]? <;>
      simp [h1, h2, pairUp_getElem?]

/-- Witness for C4 on a concrete three-row shouqi-style table. -/
theorem parser_row_repair_witness :
    (⟨["h1", "h2"], [["a", "nan"], ["b1", "b2"], ["c1", "c2"]]⟩ : DataFrame).data
        = ["a", "nan"] :: [["b1", "b2"], ["c1", "c2"]] ∧
    (parse_shouqi_post
        ⟨["h1", "h2"], [["a", "nan"], ["b1", "b2"], ["c1", "c2"]]⟩).map
        DataFrame.columns
      = some (List.zipWith shouqiMerge
          (⟨["h1", "h2"], [["a", "nan"], ["b1", "b2"], ["c1", "c2"]]⟩ :
            DataFrame).columns ["a", "nan"]) :=
  ⟨rfl,
   ((parser_row_repair
      ⟨["h1", "h2"], [["a", "nan"], ["b1", "b2"], ["c1", "c2"]]⟩).1
     ["a", "nan"] [["b1", "b2"], ["c1", "c2"]] rfl).1⟩

/-- Summing a list of ones gives the length. -/
lemma sum_map_one {α : Type _} : (l : List α) →
    (l.map (fun _ => (1 : ℕ))).sum = l.length
  | [] => rfl
  | _ :: rest => by simp [sum_map_one rest, Nat.add_comm]

/-- Under the 7-cell hypothesis, `buildDataRows` succeeds and wraps each
cell in a single-span table cell. -/
lemma buildDataRows_of_length7 (data : List (List String))
    (h : ∀ row ∈ data, row.length = 7) :
    buildDataRows data
      = some (data.map (fun r => r.map (fun s => (⟨s, 1⟩ : DocCell)))) := by
  induction data with
  | nil => rfl
  | cons r rs ih =>
    have hr : r.length = 7 := h r (List.mem_cons_self r rs)
    have hrow : mkDataRow r = some (r.map (fun s => (⟨s, 1⟩ : DocCell))) := by
      simp [mkDataRow, hr]
    simp [buildDataRows, hrow,
      ih (fun row hm => h row (List.mem_cons_of_mem _ hm))]

/-- C8: for 7-cell input rows, `generate_report` builds a table consisting
of the fixed 7-header row, the data rows in input order, and a final total
row of a 4-span cell `"金额合计："` and a 3-span cell holding the string
form of the total; every row of the table spans exactly 7 grid columns. -/
theorem report_table_structure (data : List (List String)) (total : String)
    (h : ∀ row ∈ data, row.length = 7) :
    generate_report data total
        = some (headerRow ::
            data.map (fun r => r.map (fun s => (⟨s, 1⟩ : DocCell)))
            ++ [totalRow total]) ∧
    headerRow.map DocCell.text
        = ["序号", "乘车日期", "乘车人", "出发地", "目的地", "外出事由", "金额"] ∧
    totalRow total = [⟨"金额合计：", 4⟩, ⟨total, 3⟩] ∧
    (∀ tbl, generate_report data total = some tbl →
       tbl.length = data.length + 2 ∧
       ∀ row ∈ tbl, (row.map DocCell.span).sum = 7) := by
  have h1 : generate_report data total
      = some (headerRow ::
          data.map (fun r => r.map (fun s => (⟨s, 1⟩ : DocCell)))
          ++ [totalRow total]) := by
    simp [generate_report, buildDataRows_of_length7 data h]
  refine ⟨h1, rfl, rfl, fun tbl htbl => ?_⟩
  rw [h1] at htbl
  cases htbl
  constructor
  · simp
  · intro row hrow
    rcases List.mem_cons.mp hrow with rfl | hrow2
    · rfl
    rcases List.mem_append.mp hrow2 with hdata | htot
    · rcases List.mem_map.mp hdata with ⟨r, hr, rfl⟩
      rw [List.map_map]
      have : ((fun c => DocCell.span c) ∘ fun s => (⟨s, 1⟩ : DocCell))
          = fun _ => (1 : ℕ) := rfl
      rw [this, sum_map_one, h r hr]
    · rcases List.mem_singleton.mp htot with rfl
      rfl

/-- Witness for C8 on a single 7-cell data row. -/
theorem report_table_structure_witness :
    (∀ row ∈ ([["1", "2024-01-01", "p", "甲", "乙", "事由", "9"]] :
        List (List String)), row.length = 7) ∧
    generate_report [["1", "2024-01-01", "p", "甲", "乙", "事由", "9"]] "9"
      = some (headerRow ::
          ([["1", "2024-01-01", "p", "甲", "乙", "事由", "9"]] :
            List (List String)).map
            (fun r => r.map (fun s => (⟨s, 1⟩ : DocCell)))
          ++ [totalRow "9"]) :=
  ⟨by decide,
   (report_table_structure [["1", "2024-01-01", "p", "甲", "乙", "事由", "9"]]
     "9" (by decide)).1⟩

set_option maxHeartbeats 2000000 in
/-- No segment produced by `pySplitlinesCore` contains a line-break
character. -/
lemma pySplitlinesCore_no_break (s : List Char) :
    ∀ l ∈ pySplitlinesCore s, ∀ c ∈ l, pyIsLineBreak c = false := by
  induction s using pySplitlinesCore.induct with
  | case1 =>
    intro l hl c hc
    rw [pySplitlinesCore.eq_1] at hl
    rcases List.mem_singleton.mp hl
    simp at hc
  | case2 rest ih =>
    intro l hl c hc
    rw [pySplitlinesCore.eq_2] at hl
    rcases List.mem_cons.mp hl with rfl | hl2
    · simp at hc
    · exact ih l hl2 c hc
  | case3 c0 rest hne hb ih =>
    intro l hl c hc
    rw [pySplitlinesCore.eq_3 c0 rest hne, if_pos hb] at hl
    rcases List.mem_cons.mp hl with rfl | hl2
    · simp at hc
    · exact ih l hl2 c hc
  | case4 c0 rest hne hb hcore ih =>
    intro l hl c hc
    rw [pySplitlinesCore.eq_3 c0 rest hne, if_neg hb, hcore] at hl
    rcases List.mem_singleton.mp hl
    rcases List.mem_singleton.mp hc
    simpa using hb
  | case5 c0 rest hne hb l0 ls hcore ih =>
    intro l hl c hc
    rw [pySplitlinesCore.eq_3 c0 rest hne, if_neg hb, hcore] at hl
    rcases List.mem_cons.mp hl with rfl | hl2
    · rcases List.mem_cons.mp hc with rfl | hc2
      · simpa using hb
      · refine ih l0 ?_ c hc2
        rw [hcore]
        exact List.mem_cons_self l0 ls
    · refine ih l ?_ c hc
      rw [hcore]
      exact List.mem_cons_of_mem l0 hl2

/-- `strip()` erases a string exactly when it is entirely whitespace. -/
lemma pyStrip_eq_nil_iff (l : List Char) :
    pyStrip l = [] ↔ ∀ c ∈ l, pyIsSpace c = true := by
  rw [pyStrip, List.reverse_eq_nil_iff, List.dropWhile_eq_nil_iff]
  constructor
  · intro H c hc
    have H2 : ∀ x ∈ l.dropWhile pyIsSpace, pyIsSpace x = true := by
      intro x hx
      exact H x (List.mem_reverse.mpr hx)
    have hsplit := List.takeWhile_append_dropWhile pyIsSpace l
    rw [← hsplit] at hc
    rcases List.mem_append.mp hc with h1 | h1
    · exact List.mem_takeWhile_imp h1
    · exact H2 c h1
  · intro H x hx
    exact H x ((List.dropWhile_sublist pyIsSpace).subset
      (List.mem_reverse.mp hx))

/-- Boolean form of `pyStrip_eq_nil_iff`. -/
lemma pyStrip_isEmpty_eq (l : List Char) :
    (pyStrip l).isEmpty = l.all pyIsSpace := by
  rw [Bool.eq_iff_iff, List.isEmpty_iff, List.all_eq_true, pyStrip_eq_nil_iff]

/-- C10: on a successful extraction, `_extract_text` returns the
concatenation, in order and with no separator, of exactly those lines of
the extracted text that are not entirely whitespace, and the result
contains no line-break character. -/
theorem extract_text_join_property (s : List Char) :
    (extract_text_model (.ok s)).2 = .ok (cleanText s) ∧
    cleanText s
        = ((pySplitlines s).filter (fun l => !l.all pyIsSpace)).flatten ∧
    ∀ c ∈ cleanText s, pyIsLineBreak c = false := by
  refine ⟨rfl, ?_, ?_⟩
  · rw [cleanText]
    congr 1
    apply List.filter_congr
    intro x hx
    rw [pyStrip_isEmpty_eq x]
  · intro c hc
    rw [cleanText] at hc
    rcases List.mem_flatten.mp hc with ⟨l, hl, hcl⟩
    have hl2 : l ∈ pySplitlines s := List.mem_of_mem_filter hl
    have hl3 : l ∈ pySplitlinesCore s := by
      rw [pySplitlines] at hl2
      by_cases hlast : (pySplitlinesCore s).getLast? = some []
      · rw [if_pos hlast] at hl2
        exact (List.dropLast_sublist _).subset hl2
      · rwa [if_neg hlast] at hl2
    exact pySplitlinesCore_no_break s l hl3 c hcl

/-- Witness for C10 on the text `"a b\n \nc\n"`. -/
theorem extract_text_join_property_witness :
    cleanText "a b\n \nc\n".data
        = ((pySplitlines "a b\n \nc\n".data).filter
            (fun l => !l.all pyIsSpace)).flatten ∧
    'a' ∈ cleanText "a b\n \nc\n".data ∧ pyIsLineBreak 'a' = false :=
  ⟨(extract_text_join_property "a b\n \nc\n".data).2.1,
   by decide,
   (extract_text_join_property "a b\n \nc\n".data).2.2 'a' (by decide)⟩

end GenerateReport
